import Mathlib

/-!
Shallow embedding of `src/src/app/vlc_media_player.rs` (the `VLCMediaPlayer`
adapter and its playback worker thread) from the Luis-Licea/radio repository.

The three fields `is_playing`, `is_volume_changed` and `volume` are Rust
`Arc<AtomicBool>` / `Arc<AtomicI32>` cells shared between the GUI thread and
the worker thread; we model the shared cells as a record `SharedState` that is
threaded explicitly through the GUI-side operations and the worker's steps.
`volume` is a Rust `i32`; the code only ever stores values that passed the
`0..=100` range match, so we model it as `Int` (the embedding agrees with
`i32` on the whole `i32` range, and no arithmetic is performed that could
overflow).  A Rust `panic!` is modelled as `Option.none`.

Calls into the native VLC backend (libvlc) are external effects; we record
them as a trace of `NativeEvent`s emitted by the worker.  The `.unwrap()`
calls on backend constructors concern backend initialisation failure, which is
outside the adapter's own state machine; the trace records the instruction the
backend receives.
-/

namespace Radio

/-- Calls the worker thread issues to the native VLC backend, in order. -/
inductive NativeEvent where
  /-- `Instance::new()` -/
  | newInstance : NativeEvent
  /-- `MediaPlayer::new(&instance)` -/
  | newMediaPlayer : NativeEvent
  /-- `Media::new_location(&instance, &url)` — media-from-URL construction. -/
  | newLocation (url : String) : NativeEvent
  /-- `media_player.set_media(&media)` -/
  | setMedia : NativeEvent
  /-- `media_player.play()` -/
  | playCmd : NativeEvent
  /-- `media_player.set_volume(v)` -/
  | setVolumeCmd (v : Int) : NativeEvent
  /-- `media_player.stop()` -/
  | stopCmd : NativeEvent
  deriving DecidableEq, Repr

/-- The three atomic cells shared (via `Arc`) between the GUI thread and the
worker thread: `is_playing`, `is_volume_changed`, `volume`. -/
structure SharedState where
  is_playing : Bool
  is_volume_changed : Bool
  volume : Int
  deriving DecidableEq, Repr

/-- The `VLCMediaPlayer` adapter: the shared atomic cells plus the owned
station `url` string (not shared; the worker gets a copy at spawn time). -/
structure VLCMediaPlayer where
  shared : SharedState
  url : String
  deriving DecidableEq, Repr

/-- Phases of the playback worker thread spawned by `play_url`. -/
inductive WorkerPhase where
  /-- Before the loop: backend construction (`Instance::new` through
  `media_player.play()`). -/
  | starting : WorkerPhase
  /-- Inside the `while is_playing.load(..)` poll loop. -/
  | polling : WorkerPhase
  /-- After `media_player.stop()` and the final `is_playing.store(false)`:
  the thread has exited. -/
  | terminated : WorkerPhase
  deriving DecidableEq, Repr

/-- A spawned worker thread: its phase together with the owned copy of the
URL string it captured at spawn time (`let url = self.url.to_string()`). -/
structure Worker where
  phase : WorkerPhase
  url : String
  deriving DecidableEq, Repr

/-- `VLCMediaPlayer::validate_volume`: return the volume if it matches
`0..=100`, panic (`none`) otherwise. -/
def validate_volume (volume : Int) : Option Int :=
  if 0 ≤ volume ∧ volume ≤ 100 then some volume else none

/-- `VLCMediaPlayer::new(volume)`: validate the volume (panicking on
out-of-range input), then construct the adapter with `is_playing = false`,
`is_volume_changed = false`, the validated volume, and the empty URL. -/
def VLCMediaPlayer.new (volume : Int) : Option VLCMediaPlayer :=
  (validate_volume volume).map fun v =>
    { shared := { is_playing := false, is_volume_changed := false, volume := v }
      url := "" }

/-- `VLCMediaPlayer::set_src(url)`: store the URL; nothing else changes. -/
def VLCMediaPlayer.set_src (p : VLCMediaPlayer) (url : String) : VLCMediaPlayer :=
  { p with url := url }

/-- `VLCMediaPlayer::set_volume(volume)`: validate the volume (panicking on
out-of-range input), store it in the shared `volume` cell and set the
`is_volume_changed` dirty flag. -/
def VLCMediaPlayer.set_volume (p : VLCMediaPlayer) (volume : Int) :
    Option VLCMediaPlayer :=
  (validate_volume volume).map fun v =>
    { p with shared := { p.shared with volume := v, is_volume_changed := true } }

/-- `VLCMediaPlayer::pause()`: store `false` into the shared `is_playing`
cell.  It returns immediately; no other field is touched and no worker is
waited on. -/
def VLCMediaPlayer.pause (p : VLCMediaPlayer) : VLCMediaPlayer :=
  { p with shared := { p.shared with is_playing := false } }

/-- `VLCMediaPlayer::play_url()`: spawn a worker thread that captures an owned
copy of the current URL (`self.url.to_string()`) and clones of the shared
atomic cells.  We return the freshly spawned worker. -/
def VLCMediaPlayer.play_url (p : VLCMediaPlayer) : Worker :=
  { phase := .starting, url := p.url }

/-- `VLCMediaPlayer::play()`: unconditionally store `true` into the shared
`is_playing` cell, then call `play_url`, spawning a worker.  There is no
check of the current playing state. -/
def VLCMediaPlayer.play (p : VLCMediaPlayer) : VLCMediaPlayer × Worker :=
  let p' := { p with shared := { p.shared with is_playing := true } }
  (p', p'.play_url)

/-- One step of the worker thread, acting on the shared atomic cells and
emitting the native-backend calls made during that step.

* `starting`: backend construction and the initial `play()` call, then enter
  the poll loop.
* `polling`: one iteration of `while is_playing.load(..) { .. }` — if
  `is_playing` is `true`: apply the shared volume and clear the dirty flag
  when `is_volume_changed` is set, else do nothing (yield); if `is_playing`
  is `false`: exit the loop, call `media_player.stop()` and store
  `is_playing = false`.
* `terminated`: the thread is gone; no further effect. -/
def Worker.step (w : Worker) (s : SharedState) :
    Worker × SharedState × List NativeEvent :=
  match w.phase with
  | .starting =>
      ({ w with phase := .polling }, s,
        [.newInstance, .newMediaPlayer, .newLocation w.url, .setMedia, .playCmd])
  | .polling =>
      if s.is_playing then
        if s.is_volume_changed then
          (w, { s with is_volume_changed := false }, [.setVolumeCmd s.volume])
        else
          (w, s, [])
      else
        ({ w with phase := .terminated }, { s with is_playing := false }, [.stopCmd])
  | .terminated => (w, s, [])

/-- Run `n` consecutive worker steps with no interleaved GUI activity,
collecting the native-backend calls in order. -/
def Worker.run (w : Worker) (s : SharedState) :
    Nat → Worker × SharedState × List NativeEvent
  | 0 => (w, s, [])
  | n + 1 =>
      let (w', s', es) := w.step s
      let (w'', s'', es') := w'.run s' n
      (w'', s'', es ++ es')

/-- Apply `set_volume` for each value in the list, in order (the GUI thread
calling `set_volume` several times between two worker poll observations). -/
def set_volume_seq (p : VLCMediaPlayer) : List Int → Option VLCMediaPlayer
  | [] => some p
  | v :: vs => (p.set_volume v).bind fun p' => set_volume_seq p' vs

/-- Adapter states reachable through `new` and `set_volume` (the two
operations that write the `volume` cell). -/
inductive Reachable : VLCMediaPlayer → Prop
  | of_new (v : Int) (p : VLCMediaPlayer) :
      VLCMediaPlayer.new v = some p → Reachable p
  | of_set_volume (p : VLCMediaPlayer) (v : Int) (p' : VLCMediaPlayer) :
      Reachable p → p.set_volume v = some p' → Reachable p'

/-- The whole process: the adapter held by the GUI thread plus the worker
threads spawned so far (`thread::spawn` appends a new worker). -/
structure System where
  player : VLCMediaPlayer
  workers : List Worker
  deriving DecidableEq, Repr

/-- The GUI thread calls `play()`: the adapter is updated and the spawned
worker joins the process's threads. -/
def System.doPlay (s : System) : System :=
  { player := (s.player.play).1, workers := s.workers ++ [(s.player.play).2] }

/-- The GUI thread calls `set_src(u)`. -/
def System.doSetSrc (s : System) (u : String) : System :=
  { s with player := s.player.set_src u }

/-- The GUI thread calls `pause()`. -/
def System.doPause (s : System) : System :=
  { s with player := s.player.pause }

/- Helper lemmas. -/

theorem validate_volume_in_range (v : Int) (h : 0 ≤ v ∧ v ≤ 100) :
    validate_volume v = some v := by
  simp [validate_volume, h.1, h.2]

theorem set_volume_eq (p : VLCMediaPlayer) (v : Int) (h : 0 ≤ v ∧ v ≤ 100) :
    p.set_volume v =
      some { p with shared := { p.shared with volume := v, is_volume_changed := true } } := by
  simp [VLCMediaPlayer.set_volume, validate_volume_in_range v h]

theorem run_of_terminated (w : Worker) (h : w.phase = .terminated) :
    ∀ s n, w.run s n = (w, s, []) := by
  intro s n
  induction n generalizing s with
  | zero => rfl
  | succ n ih => simp [Worker.run, Worker.step, h, ih]

theorem set_volume_seq_getLast (vs : List Int) (vlast : Int) (p : VLCMediaPlayer)
    (hlast : vs.getLast? = some vlast) (hv : ∀ v ∈ vs, 0 ≤ v ∧ v ≤ 100) :
    ∃ p', set_volume_seq p vs = some p' ∧
      p'.shared.is_playing = p.shared.is_playing ∧
      p'.shared.is_volume_changed = true ∧
      p'.shared.volume = vlast ∧ p'.url = p.url := by
  induction vs generalizing p with
  | nil => simp at hlast
  | cons v vs ih =>
      have hv0 : 0 ≤ v ∧ v ≤ 100 := hv v (List.mem_cons_self v vs)
      cases vs with
      | nil =>
          have hveq : v = vlast := by simpa using hlast
          subst hveq
          exact ⟨{ p with shared := { p.shared with volume := v, is_volume_changed := true } },
            by simp [set_volume_seq, set_volume_eq p v hv0], rfl, rfl, rfl, rfl⟩
      | cons v2 vs2 =>
          have hlast' : (v2 :: vs2).getLast? = some vlast := by
            simpa [List.getLast?_cons_cons] using hlast
          have hv' : ∀ x ∈ v2 :: vs2, 0 ≤ x ∧ x ≤ 100 := by
            intro x hx; exact hv x (List.mem_cons_of_mem v hx)
          obtain ⟨p', hseq, h1, h2, h3, h4⟩ := ih _ hlast' hv'
          refine ⟨p', ?_, by simpa using h1, h2, h3, by simpa using h4⟩
          simp [set_volume_seq, set_volume_eq p v hv0]
          exact hseq

/-- C1: For every volume value v in [0,100], calling `set_volume(v)` and then
running one iteration of the worker's poll loop (with the worker in its poll
loop and `is_playing` still set) results in the native backend's `set_volume`
being invoked exactly once with value v, and `is_volume_changed` being false
afterward. -/
theorem set_volume_then_one_poll (p : VLCMediaPlayer) (v : Int) (w : Worker)
    (hv : 0 ≤ v ∧ v ≤ 100) (hw : w.phase = .polling)
    (hplay : p.shared.is_playing = true) :
    ∃ p', p.set_volume v = some p' ∧
      (w.step p'.shared).2.2 = [NativeEvent.setVolumeCmd v] ∧
      (w.step p'.shared).2.1.is_volume_changed = false := by
  refine ⟨_, set_volume_eq p v hv, ?_, ?_⟩ <;>
    simp [Worker.step, hw, hplay]

theorem set_volume_then_one_poll_witness :
    ∃ p', VLCMediaPlayer.set_volume ⟨⟨true, false, 50⟩, "u"⟩ 75 = some p' ∧
      (Worker.step ⟨.polling, "u"⟩ p'.shared).2.2 = [NativeEvent.setVolumeCmd 75] ∧
      (Worker.step ⟨.polling, "u"⟩ p'.shared).2.1.is_volume_changed = false :=
  set_volume_then_one_poll ⟨⟨true, false, 50⟩, "u"⟩ 75 ⟨.polling, "u"⟩
    (by decide) rfl rfl

/-- C2: If `set_volume` is called several times between two worker poll
observations (for example with 50, then 0, then 80, then 30), the worker
applies only the most recently set value to the native backend before
clearing the dirty flag, and never applies any intermediate value
(last-write-wins). -/
theorem set_volume_last_write_wins (p : VLCMediaPlayer) (vs : List Int)
    (vlast : Int) (w : Worker)
    (hlast : vs.getLast? = some vlast)
    (hv : ∀ x ∈ vs, 0 ≤ x ∧ x ≤ 100)
    (hw : w.phase = .polling)
    (hplay : p.shared.is_playing = true) :
    ∃ p', set_volume_seq p vs = some p' ∧
      (w.step p'.shared).2.2 = [NativeEvent.setVolumeCmd vlast] ∧
      (w.step p'.shared).2.1.is_volume_changed = false ∧
      ∀ u, u ≠ vlast → NativeEvent.setVolumeCmd u ∉ (w.step p'.shared).2.2 := by
  obtain ⟨p', hseq, h1, h2, h3, _⟩ := set_volume_seq_getLast vs vlast p hlast hv
  have hplay' : p'.shared.is_playing = true := h1.trans hplay
  refine ⟨p', hseq, ?_, ?_, ?_⟩
  · simp [Worker.step, hw, hplay', h2, h3]
  · simp [Worker.step, hw, hplay', h2]
  · intro u hu
    simp [Worker.step, hw, hplay', h2, h3, hu]

theorem set_volume_last_write_wins_witness :
    ∃ p', set_volume_seq ⟨⟨true, false, 50⟩, "u"⟩ [50, 0, 80, 30] = some p' ∧
      (Worker.step ⟨.polling, "u"⟩ p'.shared).2.2 = [NativeEvent.setVolumeCmd 30] ∧
      (Worker.step ⟨.polling, "u"⟩ p'.shared).2.1.is_volume_changed = false ∧
      ∀ u, u ≠ 30 → NativeEvent.setVolumeCmd u ∉ (Worker.step ⟨.polling, "u"⟩ p'.shared).2.2 :=
  set_volume_last_write_wins ⟨⟨true, false, 50⟩, "u"⟩ [50, 0, 80, 30] 30
    ⟨.polling, "u"⟩ rfl (by decide) rfl rfl

/-- C3: Once the worker observes `is_playing == false`, it issues exactly one
stop instruction to the native player (no double-stop, over any number of
further steps), stores `is_playing = false`, and its loop terminates; and the
worker never issues a stop while `is_playing` remains true. -/
theorem worker_stops_exactly_once (w : Worker) (s : SharedState) (n : Nat)
    (hw : w.phase = .polling) (hs : s.is_playing = false) :
    ((w.run s (n + 1)).2.2).count NativeEvent.stopCmd = 1 ∧
    (w.run s (n + 1)).1.phase = .terminated ∧
    (w.run s (n + 1)).2.1.is_playing = false ∧
    ∀ (w' : Worker) (s' : SharedState), w'.phase = .polling → s'.is_playing = true →
      NativeEvent.stopCmd ∉ (w'.step s').2.2 := by
  have hstep : w.step s =
      ({ w with phase := .terminated }, { s with is_playing := false },
        [NativeEvent.stopCmd]) := by
    simp [Worker.step, hw, hs]
  have hterm := run_of_terminated (Worker.mk .terminated w.url) rfl
  have hrun : w.run s (n + 1) =
      ({ w with phase := .terminated }, { s with is_playing := false },
        [NativeEvent.stopCmd]) := by
    simp [Worker.run, hstep, hterm]
  refine ⟨by simp [hrun], by simp [hrun], by simp [hrun], ?_⟩
  intro w' s' hw' hs'
  cases hvc : s'.is_volume_changed <;> simp [Worker.step, hw', hs', hvc]

theorem worker_stops_exactly_once_witness :
    ((Worker.run ⟨.polling, "u"⟩ ⟨false, true, 42⟩ (2 + 1)).2.2).count
        NativeEvent.stopCmd = 1 ∧
    (Worker.run ⟨.polling, "u"⟩ ⟨false, true, 42⟩ (2 + 1)).1.phase = .terminated ∧
    (Worker.run ⟨.polling, "u"⟩ ⟨false, true, 42⟩ (2 + 1)).2.1.is_playing = false ∧
    ∀ (w' : Worker) (s' : SharedState), w'.phase = .polling → s'.is_playing = true →
      NativeEvent.stopCmd ∉ (w'.step s').2.2 :=
  worker_stops_exactly_once ⟨.polling, "u"⟩ ⟨false, true, 42⟩ 2 rfl rfl

/-- C4: In every adapter state reachable through `new` and `set_volume`, the
stored volume is in [0,100]: both operations validate their argument before
storing it, and out-of-range input is rejected fatally, so no operation ever
stores an out-of-range volume. -/
theorem reachable_volume_in_range (p : VLCMediaPlayer) (h : Reachable p) :
    0 ≤ p.shared.volume ∧ p.shared.volume ≤ 100 := by
  induction h with
  | of_new v p hnew =>
      by_cases hc : 0 ≤ v ∧ v ≤ 100
      · rw [VLCMediaPlayer.new, validate_volume_in_range v hc] at hnew
        simp [Option.map] at hnew
        subst hnew
        exact hc
      · simp [VLCMediaPlayer.new, validate_volume, hc] at hnew
  | of_set_volume p v p' _ hsv ih =>
      by_cases hc : 0 ≤ v ∧ v ≤ 100
      · rw [set_volume_eq p v hc] at hsv
        injection hsv with hp'
        subst hp'
        exact hc
      · simp [VLCMediaPlayer.set_volume, validate_volume, hc] at hsv

theorem reachable_volume_in_range_witness :
    0 ≤ (⟨⟨false, false, 50⟩, ""⟩ : VLCMediaPlayer).shared.volume ∧
      (⟨⟨false, false, 50⟩, ""⟩ : VLCMediaPlayer).shared.volume ≤ 100 :=
  reachable_volume_in_range ⟨⟨false, false, 50⟩, ""⟩
    (Reachable.of_new 50 ⟨⟨false, false, 50⟩, ""⟩ (by decide))

/-- C5 counterexample: `set_volume(101)` panics (modelled as `none`): it does
not clamp to 100, does not return a recoverable error, and terminates the
process, refuting "set_volume(v) does not crash the process" for v = 101. -/
theorem set_volume_101_panics :
    VLCMediaPlayer.set_volume ⟨⟨false, false, 50⟩, ""⟩ 101 = none := by
  decide

/-- C5 (amended): for every v outside [0,100], `set_volume(v)` panics — the
process terminates fatally; the value is neither clamped nor stored, and no
recoverable error is returned. -/
theorem set_volume_out_of_range_panics (p : VLCMediaPlayer) (v : Int)
    (hv : v < 0 ∨ 100 < v) : p.set_volume v = none := by
  have hc : ¬(0 ≤ v ∧ v ≤ 100) := by rcases hv with h | h <;> omega
  simp [VLCMediaPlayer.set_volume, validate_volume, hc]

theorem set_volume_out_of_range_panics_witness :
    VLCMediaPlayer.set_volume ⟨⟨false, false, 50⟩, ""⟩ (-5) = none :=
  set_volume_out_of_range_panics ⟨⟨false, false, 50⟩, ""⟩ (-5) (Or.inl (by decide))

/-- C6: `play()` unconditionally sets `is_playing = true` and spawns a new
worker thread on every call — for any system state, including one that is
already playing, so calling `play()` while already playing spawns a second
worker; two consecutive `play()` calls leave two spawned workers. -/
theorem play_always_spawns_worker (s : System) :
    (s.doPlay).player.shared.is_playing = true ∧
    (s.doPlay).workers = s.workers ++ [{ phase := .starting, url := s.player.url }] ∧
    ((s.doPlay).doPlay).workers.length = s.workers.length + 2 := by
  refine ⟨rfl, rfl, ?_⟩
  simp [System.doPlay, VLCMediaPlayer.play, VLCMediaPlayer.play_url]

/-- C7: `set_src(u)` followed by `play()` spawns a worker whose captured URL
is exactly u; that worker's startup issues media-from-URL construction with
exactly u (and with no other URL); and a `set_src(u')` after the spawn leaves
the spawned workers untouched — it only changes the adapter's stored URL. -/
theorem set_src_play_round_trip (s : System) (u u' : String) (sh : SharedState) :
    ((s.doSetSrc u).doPlay).workers =
        s.workers ++ [{ phase := .starting, url := u }] ∧
    (Worker.step { phase := .starting, url := u } sh).2.2 =
        [.newInstance, .newMediaPlayer, .newLocation u, .setMedia, .playCmd] ∧
    (∀ u'', u'' ≠ u →
      NativeEvent.newLocation u'' ∉ (Worker.step { phase := .starting, url := u } sh).2.2) ∧
    (((s.doSetSrc u).doPlay).doSetSrc u').workers = ((s.doSetSrc u).doPlay).workers ∧
    (((s.doSetSrc u).doPlay).doSetSrc u').player.url = u' := by
  refine ⟨rfl, rfl, ?_, rfl, rfl⟩
  intro u'' hu
  simp [Worker.step, hu]

/-- C8: `pause()` sets `is_playing` to false and returns without waiting for
the worker to actually stop (no worker is joined or modified); it leaves
every other adapter field — `volume`, `is_volume_changed`, and the stored
URL — unchanged. -/
theorem pause_only_clears_is_playing (s : System) :
    (s.doPause).player.shared.is_playing = false ∧
    (s.doPause).player.shared.volume = s.player.shared.volume ∧
    (s.doPause).player.shared.is_volume_changed = s.player.shared.is_volume_changed ∧
    (s.doPause).player.url = s.player.url ∧
    (s.doPause).workers = s.workers :=
  ⟨rfl, rfl, rfl, rfl, rfl⟩

/-- C9: `set_src(url)` records the station URL to stream on the next play and
has no side effect on current playback: it leaves `is_playing`,
`is_volume_changed`, and `volume` unchanged (and touches no worker). -/
theorem set_src_only_stores_url (s : System) (u : String) :
    (s.doSetSrc u).player.url = u ∧
    (s.doSetSrc u).player.shared.is_playing = s.player.shared.is_playing ∧
    (s.doSetSrc u).player.shared.is_volume_changed = s.player.shared.is_volume_changed ∧
    (s.doSetSrc u).player.shared.volume = s.player.shared.volume ∧
    (s.doSetSrc u).workers = s.workers :=
  ⟨rfl, rfl, rfl, rfl, rfl⟩

/-- C10: For every v in [0,100], `new(v)` constructs an adapter with
`is_playing = false`, `is_volume_changed = false`, `volume = v`, and the
stored URL equal to the empty string; consequently, calling `play()` before
any `set_src` spawns a worker whose media URL is the empty string — and the
adapter never validates the URL (`set_src` accepts any string). -/
theorem new_defaults_and_unvalidated_url (v : Int) (hv : 0 ≤ v ∧ v ≤ 100) :
    ∃ p, VLCMediaPlayer.new v = some p ∧
      p.shared.is_playing = false ∧ p.shared.is_volume_changed = false ∧
      p.shared.volume = v ∧ p.url = "" ∧
      (p.play).2 = { phase := .starting, url := "" } ∧
      (∀ sh, NativeEvent.newLocation "" ∈ ((p.play).2.step sh).2.2) ∧
      (∀ u, (p.set_src u).url = u) := by
  refine ⟨{ shared := { is_playing := false, is_volume_changed := false, volume := v },
            url := "" }, ?_, rfl, rfl, rfl, rfl, rfl, ?_, fun u => rfl⟩
  · simp [VLCMediaPlayer.new, validate_volume_in_range v hv]
  · intro sh
    simp [VLCMediaPlayer.play, VLCMediaPlayer.play_url, Worker.step]

theorem new_defaults_and_unvalidated_url_witness :
    ∃ p, VLCMediaPlayer.new 50 = some p ∧
      p.shared.is_playing = false ∧ p.shared.is_volume_changed = false ∧
      p.shared.volume = 50 ∧ p.url = "" ∧
      (p.play).2 = { phase := .starting, url := "" } ∧
      (∀ sh, NativeEvent.newLocation "" ∈ ((p.play).2.step sh).2.2) ∧
      (∀ u, (p.set_src u).url = u) :=
  new_defaults_and_unvalidated_url 50 (by decide)

end Radio
